import Mathlib

/-!
Shallow embedding of the dev-manager configuration store and repository
sync driver (pkg/config and pkg/git plus the relevant command bodies in
cmd/dev-manager), with theorems settling the specified properties.

Modelling conventions: `time.Time` and `time.Duration` are embedded as
`Int` (nanoseconds); the filesystem is a map from path to read outcome;
external `git` processes are an environment giving each command an exit
code, with the convention that a `git clone` exiting 0 creates the target
path; YAML marshalling (the external yaml.v3 library) is an abstract
parameter.
-/

namespace DevManager

/-- A managed git repository entry (pkg/config types, `Repository`).
`lastSync` embeds the Go `time.Time` as integer nanoseconds. -/
structure Repository where
  name : String
  url : String
  branch : String
  path : String
  lastSync : Int
  deriving Repr, DecidableEq

/-- Tool configuration entry (pkg/config types, `ToolConfig`). -/
structure ToolConfig where
  name : String
  configPath : String
  backupPath : String
  deriving Repr, DecidableEq

/-- Dependency entry (pkg/config types, `Dependency`). -/
structure Dependency where
  name : String
  version : String
  source : String
  path : String
  deriving Repr, DecidableEq

/-- The root configuration document (pkg/config types, `Config`).
Field defaults give the Go zero value of the struct. -/
structure Config where
  repositories : List Repository := []
  tools : List ToolConfig := []
  dependencies : List Dependency := []
  updateFrequency : Int := 0
  workspacePath : String := ""
  deriving Repr, DecidableEq

/-- Aggregated validation failure (`ValidationError` in pkg/config). -/
structure ValidationError where
  errors : List String
  deriving Repr, DecidableEq

/-- The per-repository field checks inside `Config.Validate`, in source
order: name, url, path, branch. -/
def repoEntryErrors (repo : Repository) : List String :=
  (if repo.name = "" then ["missing name"] else []) ++
  (if repo.url = "" then ["missing url"] else []) ++
  (if repo.path = "" then ["missing path"] else []) ++
  (if repo.branch = "" then ["missing branch"] else [])

/-- The per-tool field checks inside `Config.Validate`: name, configPath. -/
def toolEntryErrors (tool : ToolConfig) : List String :=
  (if tool.name = "" then ["missing name"] else []) ++
  (if tool.configPath = "" then ["missing configPath"] else [])

/-- Embeds `fmt.Sprintf("repository[%d] (%s): %s", i, name, strings.Join(errs, ", "))`. -/
def repoErrorLine (i : Nat) (nm : String) (errs : List String) : String :=
  "repository[" ++ toString i ++ "] (" ++ nm ++ "): " ++ String.intercalate ", " errs

/-- Embeds `fmt.Sprintf("tool[%d] (%s): %s", i, name, strings.Join(errs, ", "))`. -/
def toolErrorLine (i : Nat) (nm : String) (errs : List String) : String :=
  "tool[" ++ toString i ++ "] (" ++ nm ++ "): " ++ String.intercalate ", " errs

/-- Embeds `Config.Validate` (pkg/config): accumulates every violation across the
workspace path, the update frequency, and each repository and tool entry,
returning `none` when there are no errors. -/
def Config.validate (c : Config) : Option ValidationError :=
  let wsErrs := if c.workspacePath = "" then ["workspacePath is required"] else []
  let ufErrs := if c.updateFrequency ≤ 0 then ["updateFrequency must be positive"] else []
  let repoErrs := c.repositories.enum.flatMap fun p =>
    let es := repoEntryErrors p.2
    if es.length > 0 then [repoErrorLine p.1 p.2.name es] else []
  let toolErrs := c.tools.enum.flatMap fun p =>
    let es := toolEntryErrors p.2
    if es.length > 0 then [toolErrorLine p.1 p.2.name es] else []
  let errors := wsErrs ++ ufErrs ++ repoErrs ++ toolErrs
  if errors.length > 0 then some ⟨errors⟩ else none

/-- Outcome of `os.ReadFile` at one path: the file is absent, reading
fails for another reason, or reading succeeds with the file's contents. -/
inductive ReadResult where
  | notFound
  | failure (msg : String)
  | success (data : String)
  deriving Repr, DecidableEq

/-- The filesystem, as far as the configuration store observes it. -/
def FS : Type := String → ReadResult

/-- Embeds `os.WriteFile`: after a successful write the path reads back as the
written data. -/
def FS.write (fs : FS) (path data : String) : FS :=
  fun p => if p = path then ReadResult.success data else fs p

/-- The configuration manager (pkg/config `Manager`): the in-memory
config (`nil` before the first load) and the config file path. -/
structure Manager where
  config : Option Config
  configPath : String
  deriving Repr, DecidableEq

/-- Embeds `Manager.Load` (pkg/config): reads `configPath`; a missing file yields
the zero-value `Config` and no error; any other read failure is returned;
otherwise the data is unmarshalled (external yaml.v3, abstracted as
`unmarshal`), whose error, if any, is returned. Returns the updated
manager and the error `Load` reports. -/
def Manager.load (m : Manager) (fs : FS)
    (unmarshal : String → Except String Config) : Manager × Option String :=
  match fs m.configPath with
  | ReadResult.notFound => ({ m with config := some {} }, none)
  | ReadResult.failure e => (m, some e)
  | ReadResult.success data =>
      match unmarshal data with
      | Except.ok c => ({ m with config := some c }, none)
      | Except.error e => ({ m with config := some {} }, some e)

/-- Embeds `Manager.Save` (pkg/config): defaults a nil config to the zero value,
creates the parent directory (`mkdirOk` models `os.MkdirAll` succeeding),
marshals (external yaml.v3, abstracted as `marshal`) and writes the file
(`writeOk` models `os.WriteFile` succeeding). Returns the updated manager,
the filesystem after the call, and the error `Save` reports. -/
def Manager.save (m : Manager) (fs : FS) (mkdirOk writeOk : Bool)
    (marshal : Config → Except String String) : Manager × FS × Option String :=
  let m1 := { m with config := some (m.config.getD {}) }
  if mkdirOk = false then (m1, fs, some "failed to create directory")
  else
    match marshal (m.config.getD {}) with
    | Except.error e => (m1, fs, some e)
    | Except.ok data =>
        if writeOk = false then (m1, fs, some "failed to write file")
        else (m1, fs.write m.configPath data, none)

/-- Embeds `GetConfig`: the current config, defaulting nil to the zero value. -/
def Manager.getConfig (m : Manager) : Config :=
  m.config.getD {}

/-- One external `git` invocation made by the sync driver (pkg/git):
`git clone -b <branch> <url> <path>`, `git -C <path> fetch origin <branch>`,
`git -C <path> rebase origin/<branch>`, `git -C <path> status --porcelain`. -/
inductive GitCmd where
  | cloneCmd (branch url path : String)
  | fetchCmd (path branch : String)
  | rebaseCmd (path branch : String)
  | statusCmd (path : String)
  deriving Repr, DecidableEq

/-- True exactly for the `git status --porcelain` command. -/
def GitCmd.isStatus : GitCmd → Bool
  | GitCmd.statusCmd _ => true
  | _ => false

/-- The world the sync driver acts on: which paths exist (`os.Stat`),
whether `os.MkdirAll` on a repo path's parent succeeds, the exit code each
external git command would return, and the porcelain output of
`git status` for a path. -/
structure World where
  pathExists : String → Bool
  mkdirParentOk : String → Bool
  exitCode : GitCmd → Nat
  statusOut : String → String

/-- Running one external git command: returns its exit code and the world
afterwards. A `git clone` that exits 0 creates the target path (git's
contract, and the behaviour of the mock git used by the driver's tests);
no other command changes what the driver observes. -/
def World.run (w : World) (c : GitCmd) : Nat × World :=
  let code := w.exitCode c
  match c with
  | GitCmd.cloneCmd _ _ path =>
      if code = 0 then
        (code, { w with pathExists := fun p => if p = path then true else w.pathExists p })
      else (code, w)
  | _ => (code, w)

/-- A sync-driver error, one constructor per `fmt.Errorf` site in
pkg/git `Repository` (the distinct message prefixes `path already
exists`, `failed to create directory`, `failed to clone repository`,
`failed to fetch updates`, `failed to rebase`, `failed to check
repository status`). -/
inductive RepoError where
  | pathAlreadyExists (path : String)
  | mkdirFailed
  | cloneFailed (code : Nat)
  | fetchFailed (code : Nat)
  | rebaseFailed (code : Nat)
  | statusFailed (code : Nat)
  deriving Repr, DecidableEq

/-- The sync driver's view of one repository (pkg/git `Repository`). -/
structure GitRepo where
  path : String
  url : String
  branch : String
  deriving Repr, DecidableEq

/-- Embeds `git.New`: an empty branch defaults to `main`. -/
def GitRepo.new (path url branch : String) : GitRepo :=
  { path := path, url := url, branch := if branch = "" then "main" else branch }

/-- Embeds `Repository.Clone` (pkg/git): errors if the path already exists, then
creates the parent directory, then runs `git clone -b branch url path`,
wrapping a non-zero exit as a clone error. Returns the result, the world
afterwards, and the external commands run. -/
def GitRepo.clone (r : GitRepo) (w : World) :
    Except RepoError Unit × World × List GitCmd :=
  if w.pathExists r.path then (Except.error (RepoError.pathAlreadyExists r.path), w, [])
  else if w.mkdirParentOk r.path = false then (Except.error RepoError.mkdirFailed, w, [])
  else
    let c := GitCmd.cloneCmd r.branch r.url r.path
    let res := w.run c
    if res.1 = 0 then (Except.ok (), res.2, [c])
    else (Except.error (RepoError.cloneFailed res.1), res.2, [c])

/-- Embeds `Repository.Update` (pkg/git): if the path does not exist, clone;
otherwise run `git fetch origin branch` and, only if it succeeded,
`git rebase origin/branch`, wrapping each non-zero exit as the
corresponding distinct error. -/
def GitRepo.update (r : GitRepo) (w : World) :
    Except RepoError Unit × World × List GitCmd :=
  if w.pathExists r.path = false then r.clone w
  else
    let fc := GitCmd.fetchCmd r.path r.branch
    let fres := w.run fc
    if fres.1 ≠ 0 then (Except.error (RepoError.fetchFailed fres.1), fres.2, [fc])
    else
      let rc := GitCmd.rebaseCmd r.path r.branch
      let rres := fres.2.run rc
      if rres.1 ≠ 0 then (Except.error (RepoError.rebaseFailed rres.1), rres.2, [fc, rc])
      else (Except.ok (), rres.2, [fc, rc])

/-- Embeds `Repository.IsClean` (pkg/git): runs `git status --porcelain`;
a non-zero exit is an error, otherwise the tree is clean iff the captured
output is empty. -/
def GitRepo.isClean (r : GitRepo) (w : World) : Except RepoError Bool :=
  let c := GitCmd.statusCmd r.path
  let code := w.exitCode c
  if code ≠ 0 then Except.error (RepoError.statusFailed code)
  else Except.ok ((w.statusOut r.path).length = 0)

/-- What the batch-sync loop reports for one repository: the success line
`Synced repository: <name>` or the logged line
`failed to sync repository <name>: <err>` (after which the loop
continues). -/
inductive SyncEvent where
  | synced (nm : String)
  | failed (nm : String) (e : RepoError)
  deriving Repr, DecidableEq

/-- The repository a sync event reports on. -/
def SyncEvent.repoName : SyncEvent → String
  | SyncEvent.synced nm => nm
  | SyncEvent.failed nm _ => nm

/-- The loop body of `repoSyncAllCmd` (cmd/dev-manager/repos.go): for each
configured repository in order, build `git.New(path, url, branch)` and run
`Update`; a failure is logged and the loop continues with the next entry.
Returns the final world, the per-repository events in order, and all
external commands run. -/
def syncAll : List Repository → World → World × List SyncEvent × List GitCmd
  | [], w => (w, [], [])
  | repo :: rest, w =>
      let u := (GitRepo.new repo.path repo.url repo.branch).update w
      let ev := match u.1 with
        | Except.ok _ => SyncEvent.synced repo.name
        | Except.error e => SyncEvent.failed repo.name e
      let s := syncAll rest u.2.1
      (s.1, ev :: s.2.1, u.2.2 ++ s.2.2)

/-- The `repos sync-all` command body after the config load
(cmd/dev-manager/repos.go `repoSyncAllCmd`): it iterates the configured
repositories and syncs each; it never mutates the in-memory config and
never calls `Save`. Returns the in-memory config after the command, the
list of configs passed to `Save` (in order), the final world, the events,
and the commands run. -/
def repoSyncAllCmd (cfg : Config) (w : World) :
    Config × List Config × World × List SyncEvent × List GitCmd :=
  let s := syncAll cfg.repositories w
  (cfg, [], s.1, s.2.1, s.2.2)

/-- Embeds `filepath.Join` restricted to the shapes the commands build
(no cleaning needed for these inputs). -/
def joinPath (a b : String) : String :=
  if a = "" then b else a ++ "/" ++ b

/-- Outcome of a mutating command: the in-memory config when the command
ends, the configs passed to `Save` (in order), and the `log.Fatal`
message when the command exited early (a fatal log exits the process
before any later step runs). -/
structure CmdOutcome where
  finalConfig : Config
  saved : List Config
  fatalMsg : Option String
  deriving Repr, DecidableEq

/-- The `repos add` command body after the config load
(cmd/dev-manager/repos.go `repoAddCmd`): empty name or URL is fatal; a
repository whose name is already configured is fatal before the new entry
is appended and before any save; otherwise the entry (branch `main`, path
`workspacePath/name`, `lastSync` the current time `now`) is appended and
the config saved. Quote punctuation in the fatal messages is elided. -/
def repoAddCmd (cfg : Config) (repoName repoURL : String) (now : Int) : CmdOutcome :=
  if repoName = "" then
    { finalConfig := cfg, saved := [], fatalMsg := some "repository name is required (--name)" }
  else if repoURL = "" then
    { finalConfig := cfg, saved := [], fatalMsg := some "repository URL is required (--url)" }
  else if cfg.repositories.any (fun repo => repo.name = repoName) then
    { finalConfig := cfg, saved := [],
      fatalMsg := some ("repository with name " ++ repoName ++ " already exists") }
  else
    let repoPath := joinPath cfg.workspacePath repoName
    let newRepo : Repository :=
      { name := repoName, url := repoURL, branch := "main", path := repoPath, lastSync := now }
    let cfg2 := { cfg with repositories := cfg.repositories ++ [newRepo] }
    { finalConfig := cfg2, saved := [cfg2], fatalMsg := none }

/-- The value `2 * time.Hour` in nanoseconds, the default update frequency used by
the init command. -/
def twoHours : Int := 7200000000000

/-- How one run of the init command ended. -/
inductive InitResult where
  | loadFailed (e : String)
  | validateFailed (ve : ValidationError)
  | saveFailed (e : String)
  | done (finalCfg : Config)
  deriving Repr, DecidableEq

/-- The init command body after flag handling (cmd/dev-manager/config.go
`initCmd`): `workspace` is the already-defaulted workspace flag. Load the
config (any load error is fatal, since `Load` never reports a missing
file), validate the loaded config before applying defaults, then default
an empty workspace path and a zero update frequency, then save. Returns
the result and the filesystem afterwards. -/
def initCmd (m : Manager) (fs : FS) (unmarshal : String → Except String Config)
    (marshal : Config → Except String String) (mkdirOk writeOk : Bool)
    (workspace : String) : InitResult × FS :=
  let l := m.load fs unmarshal
  match l.2 with
  | some e => (InitResult.loadFailed e, fs)
  | none =>
    let cfg := l.1.getConfig
    match cfg.validate with
    | some ve => (InitResult.validateFailed ve, fs)
    | none =>
      let cfg1 := if cfg.workspacePath = "" then { cfg with workspacePath := workspace } else cfg
      let cfg2 := if cfg1.updateFrequency = 0 then { cfg1 with updateFrequency := twoHours } else cfg1
      let m2 := { l.1 with config := some cfg2 }
      let s := m2.save fs mkdirOk writeOk marshal
      match s.2.2 with
      | some e => (InitResult.saveFailed e, s.2.1)
      | none => (InitResult.done cfg2, s.2.1)

/-! ## Concrete fixtures -/

/-- A config meeting C1's stated hypotheses (empty workspace path, one
repository missing only its url, no tools) whose update frequency is the
zero value. -/
def c1bad : Config :=
  { repositories := [{ name := "r", url := "", branch := "main", path := "/w/r", lastSync := 0 }],
    tools := [], dependencies := [], updateFrequency := 0, workspacePath := "" }

/-- A manager before any load, at a fixed config path. -/
def m0 : Manager := { config := none, configPath := "/home/u/.config/dev-manager/config.yaml" }

/-- A filesystem with no file anywhere. -/
def fsEmpty : FS := fun _ => ReadResult.notFound

/-- A fixed non-trivial config used by concrete witnesses. -/
def cfg0 : Config :=
  { repositories := [{ name := "r", url := "https://h/r.git", branch := "main", path := "/w/r", lastSync := 7 }],
    tools := [{ name := "nvim", configPath := "/c/nvim", backupPath := "/b/nvim" }],
    dependencies := [], updateFrequency := 3600000000000, workspacePath := "/w" }

/-- An unmarshaller used by witnesses: every document parses to `cfg0`. -/
def unm0 : String → Except String Config := fun _ => Except.ok cfg0

/-- A marshaller used by witnesses: every config serialises to a fixed
document. -/
def mar0 : Config → Except String String := fun _ => Except.ok "doc"

/-- A world where no repository path exists yet and every external
command succeeds. -/
def wAbsent : World :=
  { pathExists := fun _ => false, mkdirParentOk := fun _ => true,
    exitCode := fun _ => 0, statusOut := fun _ => "" }

/-- A world where every repository path exists, every command succeeds,
and every working tree is clean. -/
def wPresent : World :=
  { pathExists := fun _ => true, mkdirParentOk := fun _ => true,
    exitCode := fun _ => 0, statusOut := fun _ => "" }

/-- A world where every path exists and exactly the fetch of `/w/b`
exits 1. -/
def wFetchBFails : World :=
  { pathExists := fun _ => true, mkdirParentOk := fun _ => true,
    exitCode := fun c => match c with
      | GitCmd.fetchCmd p _ => if p = "/w/b" then 1 else 0
      | _ => 0,
    statusOut := fun _ => "" }

/-- A concrete driver repository. -/
def r0 : GitRepo := GitRepo.new "/w/r" "https://h/r.git" "main"

/-- Three configured repositories; under `wFetchBFails` the second one's
fetch fails. -/
def repoA : Repository :=
  { name := "a", url := "ua", branch := "main", path := "/w/a", lastSync := 0 }

/-- See `repoA`. -/
def repoB : Repository :=
  { name := "b", url := "ub", branch := "main", path := "/w/b", lastSync := 0 }

/-- See `repoA`. -/
def repoC : Repository :=
  { name := "c", url := "uc", branch := "main", path := "/w/c", lastSync := 0 }

/-- A configured repository whose working tree is dirty under `wDirty`. -/
def dirtyRepo : Repository :=
  { name := "dirty", url := "ud", branch := "main", path := "/w/dirty", lastSync := 0 }

/-- A world where every path exists, every command succeeds, and the
porcelain status output is non-empty (uncommitted changes everywhere). -/
def wDirty : World :=
  { pathExists := fun _ => true, mkdirParentOk := fun _ => true,
    exitCode := fun _ => 0, statusOut := fun _ => "M file.txt" }

/-! ## Claims -/

/-- Claim C1, as stated, is false: on a config with empty `workspacePath`,
exactly one repository missing only its `url`, and no tools, `Validate`
can return three errors, not two — the zero update frequency also fails
validation (`updateFrequency must be positive`). -/
theorem validate_three_errors_counterexample :
    c1bad.workspacePath = "" ∧
    c1bad.tools = [] ∧
    c1bad.repositories = [{ name := "r", url := "", branch := "main", path := "/w/r", lastSync := 0 }] ∧
    ("r" : String) ≠ "" ∧ ("/w/r" : String) ≠ "" ∧ ("main" : String) ≠ "" ∧
    ((Config.validate c1bad).map fun ve => ve.errors.length) = some 3 ∧
    ((Config.validate c1bad).map fun ve => ve.errors.length) ≠ some 2 := by
  decide

/-- Claim C1 (amended: the update frequency must additionally be positive,
otherwise a third error is reported): on a config with empty
`workspacePath`, positive update frequency, exactly one repository entry
missing only its `url`, and no tools, `Validate` accumulates exactly the
two violations, the repository error tagged with index 0 and the
repository's name. -/
theorem validate_accumulates_two_errors (nm p b : String) (uf ls : Int)
    (deps : List Dependency)
    (hn : nm ≠ "") (hp : p ≠ "") (hb : b ≠ "") (huf : 0 < uf) :
    Config.validate
      { repositories := [{ name := nm, url := "", branch := b, path := p, lastSync := ls }],
        tools := [], dependencies := deps, updateFrequency := uf, workspacePath := "" } =
      some ⟨["workspacePath is required", repoErrorLine 0 nm ["missing url"]]⟩ := by
  have huf' : ¬ (uf ≤ 0) := by omega
  simp [Config.validate, repoEntryErrors, List.enum, hn, hp, hb, huf']

/-- Witness for C1's amended theorem at a concrete config. -/
theorem validate_accumulates_two_errors_witness :
    Config.validate
      { repositories := [{ name := "repo1", url := "", branch := "main", path := "/w/repo1", lastSync := 0 }],
        tools := [], dependencies := [], updateFrequency := 1, workspacePath := "" } =
      some ⟨["workspacePath is required", repoErrorLine 0 "repo1" ["missing url"]]⟩ :=
  validate_accumulates_two_errors "repo1" "/w/repo1" "main" 1 0 []
    (by decide) (by decide) (by decide) (by decide)

/-- Claim C2: `Load` on a path with no file sets the in-memory config to
the zero-value `Config` and returns no error; any other read failure is
returned; a parse failure of read data is returned. -/
theorem load_missing_file_is_empty (m : Manager) (fs : FS)
    (unmarshal : String → Except String Config) :
    (fs m.configPath = ReadResult.notFound →
      m.load fs unmarshal = ({ m with config := some {} }, none)) ∧
    (∀ e, fs m.configPath = ReadResult.failure e →
      m.load fs unmarshal = (m, some e)) ∧
    (∀ d c, fs m.configPath = ReadResult.success d → unmarshal d = Except.ok c →
      m.load fs unmarshal = ({ m with config := some c }, none)) ∧
    (∀ d e, fs m.configPath = ReadResult.success d → unmarshal d = Except.error e →
      (m.load fs unmarshal).2 = some e) := by
  refine ⟨?_, ?_, ?_, ?_⟩ <;> intros <;> simp_all [Manager.load]

/-- Witness for C2 at a concrete manager and an empty filesystem. -/
theorem load_missing_file_is_empty_witness :
    m0.load fsEmpty unm0 = ({ m0 with config := some {} }, none) :=
  (load_missing_file_is_empty m0 fsEmpty unm0).1 rfl

/-- Claim C7: saving the held config and loading from the same path yields
the same config, given that the external YAML serialiser round-trips the
config (its contract; in Go, equality holds modulo timestamp precision,
absorbed here by the round-trip hypothesis). -/
theorem save_load_roundtrip (m : Manager) (fs : FS)
    (marshal : Config → Except String String)
    (unmarshal : String → Except String Config) (c : Config) (data : String)
    (hc : m.config = some c) (hm : marshal c = Except.ok data)
    (hu : unmarshal data = Except.ok c) :
    (m.save fs true true marshal).2.2 = none ∧
    ((Manager.mk none m.configPath).load (m.save fs true true marshal).2.1 unmarshal).1.config
      = some c := by
  constructor
  · simp [Manager.save, hc, hm]
  · simp [Manager.save, Manager.load, FS.write, hc, hm, hu]

/-- Witness for C7 at a concrete manager holding `cfg0`. -/
theorem save_load_roundtrip_witness :
    ((Manager.mk (some cfg0) "/cfg.yaml").save fsEmpty true true mar0).2.2 = none ∧
    ((Manager.mk none "/cfg.yaml").load
        ((Manager.mk (some cfg0) "/cfg.yaml").save fsEmpty true true mar0).2.1 unm0).1.config
      = some cfg0 :=
  save_load_roundtrip (Manager.mk (some cfg0) "/cfg.yaml") fsEmpty mar0 unm0 cfg0 "doc"
    rfl rfl rfl

/-- Claim C3: `Update` on an absent path takes the clone branch; when the
clone command exits 0 the path exists afterwards; when the parent
directory cannot be created, or the clone command exits non-zero, an
error is returned and the path remains absent. -/
theorem update_absent_clones (r : GitRepo) (w : World)
    (habs : w.pathExists r.path = false) :
    r.update w = r.clone w ∧
    (w.mkdirParentOk r.path = true →
      w.exitCode (GitCmd.cloneCmd r.branch r.url r.path) = 0 →
      (r.update w).1 = Except.ok () ∧
      (r.update w).2.1.pathExists r.path = true) ∧
    (w.mkdirParentOk r.path = false →
      (r.update w).1 = Except.error RepoError.mkdirFailed ∧
      (r.update w).2.1.pathExists r.path = false) ∧
    (∀ code, w.exitCode (GitCmd.cloneCmd r.branch r.url r.path) = code → code ≠ 0 →
      (∃ e, (r.update w).1 = Except.error e) ∧
      (r.update w).2.1.pathExists r.path = false) := by
  refine ⟨?_, ?_, ?_, ?_⟩
  · simp [GitRepo.update, habs]
  · intro hmk hcode
    simp [GitRepo.update, GitRepo.clone, World.run, habs, hmk, hcode]
  · intro hmk
    simp [GitRepo.update, GitRepo.clone, World.run, habs, hmk]
  · intro code hcode hne
    by_cases hmk : w.mkdirParentOk r.path = false <;>
      simp [GitRepo.update, GitRepo.clone, World.run, habs, hmk, hcode, hne]

/-- Witness for C3: a successful clone of an absent repository. -/
theorem update_absent_clones_witness :
    (r0.update wAbsent).1 = Except.ok () ∧
    (r0.update wAbsent).2.1.pathExists r0.path = true :=
  (update_absent_clones r0 wAbsent rfl).2.1 rfl rfl

/-- Claim C4: `Update` on a present path runs fetch first; when the fetch
command exits non-zero, the result is the fetch-specific error (distinct
from every rebase error) and the rebase command is never invoked. -/
theorem update_fetch_fails_no_rebase (r : GitRepo) (w : World)
    (hpres : w.pathExists r.path = true) :
    ((r.update w).2.2.head? = some (GitCmd.fetchCmd r.path r.branch)) ∧
    (∀ code, w.exitCode (GitCmd.fetchCmd r.path r.branch) = code → code ≠ 0 →
      (r.update w).1 = Except.error (RepoError.fetchFailed code) ∧
      (r.update w).2.2 = [GitCmd.fetchCmd r.path r.branch] ∧
      GitCmd.rebaseCmd r.path r.branch ∉ (r.update w).2.2 ∧
      (∀ code2, RepoError.fetchFailed code ≠ RepoError.rebaseFailed code2)) := by
  constructor
  · by_cases h : w.exitCode (GitCmd.fetchCmd r.path r.branch) = 0 <;>
      by_cases h2 : w.exitCode (GitCmd.rebaseCmd r.path r.branch) = 0 <;>
      simp [GitRepo.update, World.run, hpres, h, h2]
  · intro code hcode hne
    simp [GitRepo.update, World.run, hpres, hcode, hne]

/-- Witness for C4: a present repository whose fetch exits 1. -/
theorem update_fetch_fails_no_rebase_witness :
    ((GitRepo.new "/w/b" "u" "main").update wFetchBFails).1
        = Except.error (RepoError.fetchFailed 1) ∧
    ((GitRepo.new "/w/b" "u" "main").update wFetchBFails).2.2
        = [GitCmd.fetchCmd "/w/b" "main"] ∧
    GitCmd.rebaseCmd "/w/b" "main" ∉ ((GitRepo.new "/w/b" "u" "main").update wFetchBFails).2.2 ∧
    (∀ code2, RepoError.fetchFailed 1 ≠ RepoError.rebaseFailed code2) :=
  (update_fetch_fails_no_rebase (GitRepo.new "/w/b" "u" "main") wFetchBFails rfl).2
    1 rfl (by decide)

/-- Claim C5: batch sync reports on every configured repository in
configuration order, a failure notwithstanding; in particular over three
repositories where the second fails and the third's update succeeds, the
second is reported failed and the third is still reported synced. -/
theorem syncAll_continues_after_failure (repos : List Repository) (w : World) :
    ((syncAll repos w).2.1).map SyncEvent.repoName = repos.map Repository.name ∧
    (∀ (r1 r2 r3 : Repository) (e2 : RepoError),
      repos = [r1, r2, r3] →
      ((GitRepo.new r2.path r2.url r2.branch).update
          ((GitRepo.new r1.path r1.url r1.branch).update w).2.1).1 = Except.error e2 →
      ((GitRepo.new r3.path r3.url r3.branch).update
          ((GitRepo.new r2.path r2.url r2.branch).update
            ((GitRepo.new r1.path r1.url r1.branch).update w).2.1).2.1).1 = Except.ok () →
      ((syncAll repos w).2.1)[1]? = some (SyncEvent.failed r2.name e2) ∧
      ((syncAll repos w).2.1)[2]? = some (SyncEvent.synced r3.name)) := by
  constructor
  · induction repos generalizing w with
    | nil => simp [syncAll]
    | cons repo rest ih =>
        cases h : ((GitRepo.new repo.path repo.url repo.branch).update w).1 <;>
          simp [syncAll, h, SyncEvent.repoName, ih]
  · intro r1 r2 r3 e2 hrepos h2 h3
    subst hrepos
    cases h1 : ((GitRepo.new r1.path r1.url r1.branch).update w).1 <;>
      simp [syncAll, h1, h2, h3]

/-- Witness for C5: three repositories, the second one's fetch exits 1,
the third still syncs. -/
theorem syncAll_continues_after_failure_witness :
    ((syncAll [repoA, repoB, repoC] wFetchBFails).2.1)[1]?
        = some (SyncEvent.failed repoB.name (RepoError.fetchFailed 1)) ∧
    ((syncAll [repoA, repoB, repoC] wFetchBFails).2.1)[2]?
        = some (SyncEvent.synced repoC.name) :=
  (syncAll_continues_after_failure [repoA, repoB, repoC] wFetchBFails).2
    repoA repoB repoC (RepoError.fetchFailed 1) rfl rfl rfl

/-- Claim C6: adding a repository whose name is already configured is
rejected: the config is unchanged, nothing is saved, the command is
fatal, and (when name and url are non-empty) the fatal message is the
duplicate-name error. -/
theorem add_duplicate_rejected (cfg : Config) (nm u : String) (now : Int)
    (hdup : (cfg.repositories.any fun repo => repo.name = nm) = true) :
    (repoAddCmd cfg nm u now).finalConfig = cfg ∧
    (repoAddCmd cfg nm u now).saved = [] ∧
    (repoAddCmd cfg nm u now).fatalMsg.isSome = true ∧
    (nm ≠ "" → u ≠ "" → (repoAddCmd cfg nm u now).fatalMsg =
      some ("repository with name " ++ nm ++ " already exists")) := by
  by_cases h1 : nm = "" <;> by_cases h2 : u = "" <;>
    simp [repoAddCmd, h1, h2, hdup]

/-- Witness for C6: adding `r` to `cfg0`, which already has an `r`. -/
theorem add_duplicate_rejected_witness :
    (repoAddCmd cfg0 "r" "https://h/other.git" 99).finalConfig = cfg0 ∧
    (repoAddCmd cfg0 "r" "https://h/other.git" 99).saved = [] ∧
    (repoAddCmd cfg0 "r" "https://h/other.git" 99).fatalMsg.isSome = true ∧
    (("r" : String) ≠ "" → ("https://h/other.git" : String) ≠ "" →
      (repoAddCmd cfg0 "r" "https://h/other.git" 99).fatalMsg =
        some ("repository with name " ++ "r" ++ " already exists")) :=
  add_duplicate_rejected cfg0 "r" "https://h/other.git" 99 (by decide)

/-- Claim C8 is contradicted by the code at this input: a repository whose
working tree is dirty — `IsClean` would return false — is still fetched
and rebased by batch sync, which never invokes the status command (it
does not consult `IsClean` at all) and reports the repository synced. -/
theorem syncAll_rebases_dirty_tree :
    (GitRepo.new dirtyRepo.path dirtyRepo.url dirtyRepo.branch).isClean wDirty
        = Except.ok false ∧
    (syncAll [dirtyRepo] wDirty).2.2
        = [GitCmd.fetchCmd "/w/dirty" "main", GitCmd.rebaseCmd "/w/dirty" "main"] ∧
    ((syncAll [dirtyRepo] wDirty).2.2.any GitCmd.isStatus) = false ∧
    (syncAll [dirtyRepo] wDirty).2.1 = [SyncEvent.synced "dirty"] := by
  refine ⟨rfl, ?_, ?_, ?_⟩ <;> decide

/-- Claim C9, as stated, is false: after a successful batch sync of
`cfg0`'s repository (reported synced), the config is unchanged — its
`lastSync` is still the stored 7 — and no config is ever passed to
`Save`. -/
theorem syncAll_lastSync_counterexample :
    (repoSyncAllCmd cfg0 wPresent).2.2.2.1 = [SyncEvent.synced "r"] ∧
    (repoSyncAllCmd cfg0 wPresent).1 = cfg0 ∧
    ((repoSyncAllCmd cfg0 wPresent).1.repositories.map Repository.lastSync) = [7] ∧
    (repoSyncAllCmd cfg0 wPresent).2.1 = [] := by
  decide

/-- Claim C9 (amended: batch sync updates no timestamp and persists
nothing): for every config and world, the sync-all command leaves the
in-memory config — every `lastSync` included — unchanged and calls
`Save` on nothing. -/
theorem syncAll_never_updates_or_saves (cfg : Config) (w : World) :
    (repoSyncAllCmd cfg w).1 = cfg ∧
    ((repoSyncAllCmd cfg w).1.repositories.map Repository.lastSync)
        = cfg.repositories.map Repository.lastSync ∧
    (repoSyncAllCmd cfg w).2.1 = [] := by
  simp [repoSyncAllCmd]

/-- Claim C10: when no configuration file exists at the target path, init
loads the zero-value config, validates it before applying any default,
and fails on exactly the empty workspace path and non-positive update
frequency, writing nothing to the filesystem. -/
theorem init_no_config_file_fails (m : Manager) (fs : FS)
    (unmarshal : String → Except String Config)
    (marshal : Config → Except String String)
    (mkdirOk writeOk : Bool) (workspace : String)
    (habs : fs m.configPath = ReadResult.notFound) :
    initCmd m fs unmarshal marshal mkdirOk writeOk workspace =
      (InitResult.validateFailed
          ⟨["workspacePath is required", "updateFrequency must be positive"]⟩, fs) := by
  simp [initCmd, Manager.load, habs, Manager.getConfig, Config.validate]

/-- Witness for C10 at a concrete manager over an empty filesystem. -/
theorem init_no_config_file_fails_witness :
    initCmd m0 fsEmpty unm0 mar0 true true "/home/u/dev" =
      (InitResult.validateFailed
          ⟨["workspacePath is required", "updateFrequency must be positive"]⟩, fsEmpty) :=
  init_no_config_file_fails m0 fsEmpty unm0 mar0 true true "/home/u/dev" rfl

end DevManager
